import Mathlib

/-!
Verification of the AMQP RPC client of `src/messaging/__init__.py`

This file is a shallow embedding of the `AMQPRPCClient` class found in
`src/messaging/__init__.py` of the water-usage-forecasts REST service, together
with the retry wrapper around `send` found in `_token_check`
(`src/api/__init__.py`, lines 340-356).

The Python class keeps two module-level dictionaries, `responses` (correlation
id to payload or `None`) and `events` (correlation id to `threading.Event`),
a pika channel, and an internal lock.  Its three relevant methods are:

* `publish_message` (lines 88-109): generates `'request#' + uuid4()`, stores
  `None` under that id in `responses`, a fresh unset `Event` in `events`, then
  publishes the message under the internal lock and returns the id and event.
* `__on_message_received` (lines 66-86): prints the body, stores the decoded
  body in `responses[correlation_id]`, prints it, acks the delivery, looks the
  id up in `events` (a plain dictionary subscript, which raises `KeyError`
  when absent) and sets the event.
* `__process_data_events` (lines 52-64): registers the consumer, then loops
  forever; each iteration acquires the internal lock, drains pending
  deliveries (each dispatched to `__on_message_received`) and sleeps 0.1 s,
  releasing the lock only afterwards.  The loop body contains no exception
  handler.

We model the mutable state of one client as a structure, each executable
Python statement of those methods as a `Stmt`, and each method body as the
list of statements it performs, in source order.  `exec` gives one statement's
effect on the state (returning the post-state and, when the statement raises,
the exception name); `execTrace` runs a statement list, stopping at the first
raised exception, exactly as an uncaught Python exception aborts the rest of
the method.  The effect a propagating exception has on a `with`-held lock is
not modelled; no theorem below reads the lock flag of a state produced by an
aborted trace.

Python dictionaries are modelled as association lists with `dictGet` /
`dictSet` (assignment overwrites), `threading.Event` as a `Bool` (`true` =
signalled), message bodies and correlation ids as `String`.
-/

/-- An outbound AMQP message, as assembled by `basic_publish` in
`publish_message` (lines 99-107). -/
structure OutboundMessage where
  exchange : String
  routing_key : String
  reply_to : Option String
  correlation_id : String
  body : String
deriving DecidableEq, Repr

/-- An inbound delivery, as handed to `__on_message_received`: the delivery
tag of `method`, the correlation id of `properties`, and the body. -/
structure Delivery where
  delivery_tag : Nat
  correlation_id : String
  content : String
deriving DecidableEq, Repr

/-- Lookup in a Python dictionary modelled as an association list:
`d.get(k)` / the subscript `d[k]` (which raises on `none`). -/
def dictGet {α : Type} (m : List (String × α)) (k : String) : Option α :=
  match m with
  | [] => none
  | (k', v) :: rest => if k' = k then some v else dictGet rest k

/-- Assignment `d[k] = v` in a Python dictionary: overwrites an existing
binding, otherwise appends a new one. -/
def dictSet {α : Type} (m : List (String × α)) (k : String) (v : α) :
    List (String × α) :=
  match m with
  | [] => [(k, v)]
  | (k', v') :: rest =>
      if k' = k then (k, v) :: rest else (k', v') :: dictSet rest k v

/-- The mutable state of one `AMQPRPCClient` instance together with the
observable effects on its channel.  `responses` and `events` are the two
dictionaries of the class; `published`, `acked` and `publishAttempts` record
the channel operations; `connectionOk` models whether the broker connection
is alive (a dead connection makes `basic_publish` raise); `lockHeld` models
`__internal_lock`; `inbound` holds deliveries that have arrived on the reply
queue but have not yet been drained by the consumer thread;
`msg_callback_queue` and `exchange_name` are the constants fixed by
`__init__`. -/
structure AMQPRPCClient where
  responses : List (String × Option String)
  events : List (String × Bool)
  published : List OutboundMessage
  acked : List Nat
  publishAttempts : Nat
  connectionOk : Bool
  lockHeld : Bool
  inbound : List Delivery
  msg_callback_queue : String
  exchange_name : String
deriving DecidableEq, Repr

/-- The state of a freshly constructed client (`__init__`, lines 21-50):
empty dictionaries, nothing published or acked, a live connection, the lock
free and no pending deliveries. -/
def initial_client (cbq exch : String) : AMQPRPCClient :=
  { responses := []
    events := []
    published := []
    acked := []
    publishAttempts := 0
    connectionOk := true
    lockHeld := false
    inbound := []
    msg_callback_queue := cbq
    exchange_name := exch }

/-- One executable Python statement of the three methods. -/
inductive Stmt where
  /-- `self.responses[id] = None` (line 96). -/
  | registerResponse (id : String)
  /-- `self.events[id] = threading.Event()`, the event unset (lines 95, 97). -/
  | registerEvent (id : String)
  /-- `self.responses[id] = content.decode('utf-8')` (line 82). -/
  | storeResponse (id : String) (payload : String)
  /-- `self.__channel.basic_ack(tag)` (line 84). -/
  | ack (tag : Nat)
  /-- `event = self.events[id]` (line 85); raises `KeyError` if absent. -/
  | lookupEvent (id : String)
  /-- `event.set()` (line 86). -/
  | signalEvent (id : String)
  /-- `self.__channel.basic_publish(...)` (lines 99-107); raises when the
  connection is broken. -/
  | publish (msg : OutboundMessage)
  /-- Acquiring `self.__internal_lock` (entering a `with` block). -/
  | acquire
  /-- Releasing `self.__internal_lock` (leaving a `with` block). -/
  | release
  /-- `sleep(0.1)` (line 64). -/
  | sleep
  /-- A `print(...)` call (lines 81, 83). -/
  | printA
  /-- `self.__logger.info(...)` (line 108). -/
  | logA
deriving DecidableEq, Repr

/-- Whether an action is the publish statement. -/
def Stmt.isPublish : Stmt → Bool
  | .publish _ => true
  | _ => false

/-- The effect of one statement on the client state.  The second component is
`some e` when the statement raises exception `e`, and the first component is
the state at that moment. -/
def exec (s : AMQPRPCClient) : Stmt → AMQPRPCClient × Option String
  | .registerResponse id =>
      ({ s with responses := dictSet s.responses id none }, none)
  | .registerEvent id =>
      ({ s with events := dictSet s.events id false }, none)
  | .storeResponse id p =>
      ({ s with responses := dictSet s.responses id (some p) }, none)
  | .ack tag => ({ s with acked := s.acked ++ [tag] }, none)
  | .lookupEvent id =>
      match dictGet s.events id with
      | some _ => (s, none)
      | none => (s, some "KeyError")
  | .signalEvent id =>
      ({ s with events := dictSet s.events id true }, none)
  | .publish msg =>
      if s.connectionOk then
        ({ s with
            published := s.published ++ [msg]
            publishAttempts := s.publishAttempts + 1 }, none)
      else
        ({ s with publishAttempts := s.publishAttempts + 1 },
          some "ConnectionError")
  | .acquire => ({ s with lockHeld := true }, none)
  | .release => ({ s with lockHeld := false }, none)
  | .sleep => (s, none)
  | .printA => (s, none)
  | .logA => (s, none)

/-- Run a statement list in order; an exception aborts the remaining
statements and propagates, as in Python when nothing catches it. -/
def execTrace (s : AMQPRPCClient) : List Stmt → AMQPRPCClient × Option String
  | [] => (s, none)
  | a :: rest =>
      match exec s a with
      | (s', none) => execTrace s' rest
      | (s', some e) => (s', some e)

/-- The correlation id built on line 94: `'request#' + str(uuid.uuid4())`,
as a function of the uuid the generator yielded. -/
def corrId (u : String) : String := "request#" ++ u

/-- The statements of `publish_message` (lines 94-109) in source order, for a
uuid `u`, message `m`, callback queue `cbq` and exchange `exch`. -/
def publishTrace (u m cbq exch : String) : List Stmt :=
  [ Stmt.registerResponse (corrId u),
    Stmt.registerEvent (corrId u),
    Stmt.acquire,
    Stmt.publish
      { exchange := exch
        routing_key := ""
        reply_to := some cbq
        correlation_id := corrId u
        body := m },
    Stmt.logA,
    Stmt.release ]

/-- The outcome of one `publish_message` call: the post-state, a propagated
exception if any, and the returned correlation id when the call returns. -/
structure PubResult where
  state : AMQPRPCClient
  err : Option String
  ret : Option String
deriving DecidableEq, Repr

/-- `publish_message` (lines 88-109): run its statements; when no exception
propagates the call returns the fresh correlation id (line 109). -/
def publish_message (c : AMQPRPCClient) (u m : String) : PubResult :=
  let r := execTrace c (publishTrace u m c.msg_callback_queue c.exchange_name)
  { state := r.1
    err := r.2
    ret := match r.2 with
           | none => some (corrId u)
           | some _ => none }

/-- The statements of `__on_message_received` (lines 81-86) in source order
for a delivery with correlation id `cid`, delivery tag `tag` and decoded body
`content`. -/
def on_message_received (cid : String) (tag : Nat) (content : String) :
    List Stmt :=
  [ Stmt.printA,
    Stmt.storeResponse cid content,
    Stmt.printA,
    Stmt.ack tag,
    Stmt.lookupEvent cid,
    Stmt.signalEvent cid ]

/-- The handler invocations `process_data_events()` performs for the drained
deliveries, in arrival order. -/
def handlersTrace : List Delivery → List Stmt
  | [] => []
  | d :: rest =>
      on_message_received d.correlation_id d.delivery_tag d.content
        ++ handlersTrace rest

/-- The statements of one iteration of the `while True` loop of
`__process_data_events` (lines 61-64): acquire the lock, dispatch every
drained delivery, sleep, release. -/
def pumpIterationTrace (ds : List Delivery) : List Stmt :=
  (Stmt.acquire :: handlersTrace ds) ++ [Stmt.sleep, Stmt.release]

/-- One iteration of the pump loop, draining the pending deliveries of `c`.
The loop body has no exception handler, so the error component being `some e`
means the exception leaves the loop and kills the consumer thread. -/
def process_data_events (c : AMQPRPCClient) : AMQPRPCClient × Option String :=
  execTrace { c with inbound := [] } (pumpIterationTrace c.inbound)

/-- The retry wrapper of `_token_check` (`src/api/__init__.py`, lines
340-356): try one send; on any exception, build a brand-new client and send
once more, whose exception, if any, propagates to the caller. -/
def send_with_retry (c fresh : AMQPRPCClient) (u1 u2 m : String) : PubResult :=
  let r := publish_message c u1 m
  match r.err with
  | none => r
  | some _ => publish_message fresh u2 m

/-- The registry invariant relating the two dictionaries: whenever an event
is signalled, a non-`None` payload is stored under the same correlation id. -/
def RegistryInv (s : AMQPRPCClient) : Prop :=
  ∀ id, dictGet s.events id = some true →
    ∃ p, dictGet s.responses id = some (some p)

/-- A client with one registered but unfulfilled call, used as a concrete
instance below. -/
def regClient : AMQPRPCClient :=
  { initial_client "q" "ex" with
    responses := [("request#a", none)]
    events := [("request#a", false)] }

/-- A client with one already fulfilled call. -/
def fulfilledClient : AMQPRPCClient :=
  { initial_client "q" "ex" with
    responses := [("request#a", some "old")]
    events := [("request#a", true)] }

/-- A client whose broker connection has died. -/
def brokenClient : AMQPRPCClient :=
  { initial_client "q" "ex" with connectionOk := false }

/-- A client with one pending delivery whose correlation id was never
registered. -/
def badPumpClient : AMQPRPCClient :=
  { initial_client "q" "ex" with
    inbound := [{ delivery_tag := 1, correlation_id := "x", content := "p" }] }

/-- A client already holding a fulfilled entry under the id that the uuid
`u` would produce, for the duplicate-registration scenario. -/
def dupClient : AMQPRPCClient :=
  { initial_client "q" "ex" with
    responses := [("request#u", some "old")]
    events := [("request#u", true)] }

section DictLemmas

theorem dictGet_dictSet_self {α : Type} (m : List (String × α)) (k : String)
    (v : α) : dictGet (dictSet m k v) k = some v := by
  induction m with
  | nil => simp [dictGet, dictSet]
  | cons hd tl ih =>
      obtain ⟨k', v'⟩ := hd
      by_cases h : k' = k
      · simp [dictGet, dictSet, h]
      · simp [dictGet, dictSet, h, ih]

theorem dictGet_dictSet_ne {α : Type} (m : List (String × α)) (k k' : String)
    (v : α) (h : k ≠ k') : dictGet (dictSet m k v) k' = dictGet m k' := by
  induction m with
  | nil => simp [dictGet, dictSet, h]
  | cons hd tl ih =>
      obtain ⟨k0, v0⟩ := hd
      by_cases h0 : k0 = k
      · subst h0
        simp [dictGet, dictSet, h]
      · simp [dictGet, dictSet, h0, ih]

end DictLemmas

section TraceLemmas

/-- Running an appended statement list: the second part runs from the first
part's final state, unless the first part raised. -/
theorem execTrace_append (s : AMQPRPCClient) (t1 t2 : List Stmt) :
    execTrace s (t1 ++ t2) =
      match execTrace s t1 with
      | (s', none) => execTrace s' t2
      | (s', some e) => (s', some e) := by
  induction t1 generalizing s with
  | nil => simp [execTrace]
  | cons a rest ih =>
      simp only [List.cons_append, execTrace]
      rcases h : exec s a with ⟨s', e⟩
      cases e with
      | none => exact ih s'
      | some e => rfl

/-- The message handler never touches the internal lock. -/
theorem on_message_received_lockHeld (s : AMQPRPCClient) (cid : String)
    (tag : Nat) (content : String) :
    (execTrace s (on_message_received cid tag content)).1.lockHeld
      = s.lockHeld := by
  rcases h : dictGet s.events cid with _ | b <;>
    simp [on_message_received, execTrace, exec, h]

/-- Dispatching any number of deliveries never touches the internal lock,
whether or not a handler raises along the way. -/
theorem handlersTrace_lockHeld (ds : List Delivery) (s : AMQPRPCClient) :
    (execTrace s (handlersTrace ds)).1.lockHeld = s.lockHeld := by
  induction ds generalizing s with
  | nil => simp [handlersTrace, execTrace]
  | cons d rest ih =>
      rw [handlersTrace, execTrace_append]
      rcases h : execTrace s
          (on_message_received d.correlation_id d.delivery_tag d.content)
        with ⟨s', e⟩
      have hl : s'.lockHeld = s.lockHeld := by
        have hh := on_message_received_lockHeld s d.correlation_id
          d.delivery_tag d.content
        rw [h] at hh
        exact hh
      cases e with
      | none => simpa [hl] using ih s'
      | some e => simpa using hl

/-- On an unregistered correlation id the handler stores the payload, acks,
and then aborts with a `KeyError` at the `events` subscript of line 85. -/
theorem on_message_received_keyError (s : AMQPRPCClient) (cid : String)
    (tag : Nat) (content : String) (h : dictGet s.events cid = none) :
    execTrace s (on_message_received cid tag content)
      = ({ s with
            responses := dictSet s.responses cid (some content)
            acked := s.acked ++ [tag] }, some "KeyError") := by
  simp [on_message_received, execTrace, exec, h]

end TraceLemmas

/-- C1: In every `publish_message` call, the correlation id is registered
in both registry dictionaries (lines 96-97) strictly before the single
`basic_publish` statement (index 3 of the method's statement list): no publish
occurs among the first three statements nor after index 3, and the state
reached by executing exactly the statements before the publish already maps
the id to `None` in `responses` and to an unset event in `events`. -/
theorem spec_c1 (s : AMQPRPCClient) (u m : String) :
    (publishTrace u m s.msg_callback_queue s.exchange_name).get? 3
      = some (Stmt.publish
          { exchange := s.exchange_name
            routing_key := ""
            reply_to := some s.msg_callback_queue
            correlation_id := corrId u
            body := m })
    ∧ ((publishTrace u m s.msg_callback_queue s.exchange_name).take 3).all
        (fun a => ! a.isPublish) = true
    ∧ ((publishTrace u m s.msg_callback_queue s.exchange_name).drop 4).all
        (fun a => ! a.isPublish) = true
    ∧ dictGet (execTrace s
        ((publishTrace u m s.msg_callback_queue s.exchange_name).take 3)).1.responses
        (corrId u) = some none
    ∧ dictGet (execTrace s
        ((publishTrace u m s.msg_callback_queue s.exchange_name).take 3)).1.events
        (corrId u) = some false := by
  refine ⟨rfl, rfl, rfl, ?_, ?_⟩ <;>
    simp [publishTrace, execTrace, exec, dictGet_dictSet_self]

/-- C2 counterexample: A delivery whose correlation id matches no
registered call is not silently discarded: on a fresh client the handler
raises a `KeyError`, and it has modified the registry by storing the payload
under the unknown id. -/
theorem spec_c2_counterexample :
    (execTrace (initial_client "q" "ex") (on_message_received "x" 1 "p")).2
      = some "KeyError"
    ∧ dictGet (execTrace (initial_client "q" "ex")
        (on_message_received "x" 1 "p")).1.responses "x" = some (some "p") := by
  constructor <;> rfl

/-- C2 amended: For a delivery whose correlation id matches no
registered call, the handler stores the payload into `responses` (creating a
new entry for the unknown id) and acknowledges the delivery, but then raises
a `KeyError` at the `events` subscript instead of discarding silently;
entries of `responses` for all other ids, and the whole `events` dictionary,
are unchanged. -/
theorem spec_c2 (s : AMQPRPCClient) (cid : String) (tag : Nat)
    (content : String) (h : dictGet s.events cid = none) :
    (execTrace s (on_message_received cid tag content)).2 = some "KeyError"
    ∧ (execTrace s (on_message_received cid tag content)).1.acked
        = s.acked ++ [tag]
    ∧ dictGet (execTrace s (on_message_received cid tag content)).1.responses
        cid = some (some content)
    ∧ (∀ id, id ≠ cid →
        dictGet (execTrace s (on_message_received cid tag content)).1.responses
          id = dictGet s.responses id)
    ∧ (execTrace s (on_message_received cid tag content)).1.events
        = s.events := by
  rw [on_message_received_keyError s cid tag content h]
  refine ⟨rfl, rfl, dictGet_dictSet_self _ _ _, ?_, rfl⟩
  intro id hid
  exact dictGet_dictSet_ne _ _ _ _ (fun hh => hid hh.symm)

/-- Witness for C2 at a concrete unregistered id. -/
theorem spec_c2_witness :
    dictGet (initial_client "q" "ex").events "x" = none
    ∧ (execTrace (initial_client "q" "ex") (on_message_received "x" 1 "p")).1.acked
        = (initial_client "q" "ex").acked ++ [1] :=
  ⟨rfl, (spec_c2 (initial_client "q" "ex") "x" 1 "p" rfl).2.1⟩

/-- C3 counterexample: One bad message stops the Pump: a client that
drains a single delivery with an unregistered correlation id finishes its
loop iteration with a propagating `KeyError` — the loop body has no handler,
so the exception leaves the loop. -/
theorem spec_c3_counterexample :
    (process_data_events badPumpClient).2 = some "KeyError" := by
  rfl

/-- C3 amended: A failure while processing one delivery is not
contained: since neither the handler nor the `while True` body catches
exceptions, the `KeyError` raised on an unregistered correlation id
propagates out of the loop iteration (terminating the consumer thread), and
the remaining drained deliveries of that iteration are never processed —
only the failing delivery was acknowledged. -/
theorem spec_c3 (s : AMQPRPCClient) (d : Delivery) (rest : List Delivery)
    (h : dictGet s.events d.correlation_id = none) :
    (process_data_events { s with inbound := d :: rest }).2 = some "KeyError"
    ∧ (process_data_events { s with inbound := d :: rest }).1.acked
        = s.acked ++ [d.delivery_tag] := by
  constructor <;>
    simp [process_data_events, pumpIterationTrace, handlersTrace,
      on_message_received, execTrace, exec, h]

/-- Witness for C3: a concrete unregistered delivery aborts the iteration. -/
theorem spec_c3_witness :
    (process_data_events
        { initial_client "q" "ex" with
            inbound := [{ delivery_tag := 5, correlation_id := "y",
                          content := "z" }] }).2 = some "KeyError" :=
  (spec_c3 (initial_client "q" "ex")
    { delivery_tag := 5, correlation_id := "y", content := "z" } [] rfl).1

/-- C4 counterexample: The handler does not acknowledge after
signalling, and does not look the id up before storing: in its statement
list the ack (index 3) precedes the event signalling (index 5), and the
store (index 1) precedes the registry lookup (index 4). -/
theorem spec_c4_counterexample :
    (on_message_received "c" 1 "p").indexOf (Stmt.ack 1)
        < (on_message_received "c" 1 "p").indexOf (Stmt.signalEvent "c")
    ∧ (on_message_received "c" 1 "p").indexOf (Stmt.storeResponse "c" "p")
        < (on_message_received "c" 1 "p").indexOf (Stmt.lookupEvent "c") := by
  constructor <;> decide

/-- C4 amended: For a delivery whose correlation id is registered, the
handler performs its steps in this order: store the payload into `responses`,
acknowledge the delivery, look the id up in `events`, and only then signal
the wake primitive — the acknowledgement precedes the signalling and the
lookup happens after the store; for a registered id the run raises nothing. -/
theorem spec_c4 (cid : String) (tag : Nat) (content : String) :
    on_message_received cid tag content
      = [ Stmt.printA, Stmt.storeResponse cid content, Stmt.printA,
          Stmt.ack tag, Stmt.lookupEvent cid, Stmt.signalEvent cid ]
    ∧ (∀ (s : AMQPRPCClient) (b : Bool), dictGet s.events cid = some b →
        (execTrace s (on_message_received cid tag content)).2 = none) := by
  refine ⟨rfl, fun s b h => ?_⟩
  simp [on_message_received, execTrace, exec, h]

/-- Witness for C4 at a registered id. -/
theorem spec_c4_witness :
    (execTrace regClient (on_message_received "request#a" 2 "pong")).2
      = none :=
  (spec_c4 "request#a" 2 "pong").2 regClient false rfl

/-- C5 counterexample: A `publish_message` call on a dead connection
performs no reconnect and no retry: exactly one publish attempt is made, the
connection is left broken, and the raw `ConnectionError` (not a
`TransportError` after a reconnect-and-retry) propagates to the caller. -/
theorem spec_c5_counterexample :
    (publish_message brokenClient "u" "m").err = some "ConnectionError"
    ∧ (publish_message brokenClient "u" "m").state.publishAttempts = 1
    ∧ (publish_message brokenClient "u" "m").state.connectionOk = false := by
  refine ⟨rfl, rfl, rfl⟩

/-- C5 amended: `publish_message` itself performs no reconnect and no
retry: on a broken connection it makes exactly one publish attempt, leaves
the connection broken and lets the connection error propagate.  Only the
token-introspection call site (`_token_check`) wraps its send in a retry: on
a first failure it builds one new client and sends exactly once more; if that
second client's connection is also broken the failure is surfaced
synchronously to the caller after exactly one attempt on the new client,
while a healthy second client makes the retry return a fresh id. -/
theorem spec_c5 (s fresh : AMQPRPCClient) (u1 u2 m : String)
    (hs : s.connectionOk = false) :
    ((publish_message s u1 m).err = some "ConnectionError"
      ∧ (publish_message s u1 m).state.publishAttempts = s.publishAttempts + 1
      ∧ (publish_message s u1 m).state.connectionOk = false)
    ∧ (fresh.connectionOk = false →
        (send_with_retry s fresh u1 u2 m).err = some "ConnectionError"
        ∧ (send_with_retry s fresh u1 u2 m).state.publishAttempts
            = fresh.publishAttempts + 1)
    ∧ (fresh.connectionOk = true →
        (send_with_retry s fresh u1 u2 m).err = none
        ∧ (send_with_retry s fresh u1 u2 m).ret = some (corrId u2)) := by
  refine ⟨?_, fun hf => ?_, fun hf => ?_⟩
  · simp [publish_message, publishTrace, execTrace, exec, hs]
  · simp [publish_message, send_with_retry, publishTrace, execTrace, exec,
      hs, hf]
  · simp [publish_message, send_with_retry, publishTrace, execTrace, exec,
      hs, hf]
  
/-- Witness for C5: both clients broken, then the second one healthy. -/
theorem spec_c5_witness :
    ((publish_message brokenClient "a" "m").err = some "ConnectionError"
      ∧ (send_with_retry brokenClient brokenClient "a" "b" "m").err
          = some "ConnectionError")
    ∧ (send_with_retry brokenClient (initial_client "q" "ex") "a" "b" "m").ret
        = some (corrId "b") :=
  ⟨⟨(spec_c5 brokenClient brokenClient "a" "b" "m" rfl).1.1,
    ((spec_c5 brokenClient brokenClient "a" "b" "m" rfl).2.1 rfl).1⟩,
   ((spec_c5 brokenClient (initial_client "q" "ex") "a" "b" "m" rfl).2.2
      rfl).2⟩

/-- C6 counterexample: Registering an id that already exists does not
fail and does not leave the existing entry unchanged: on a client already
holding a fulfilled entry for `request#u`, `publish_message` with uuid `u`
returns without error and has reset `responses` to `None` and the event to
unset. -/
theorem spec_c6_counterexample :
    (publish_message dupClient "u" "m").err = none
    ∧ dictGet (publish_message dupClient "u" "m").state.responses "request#u"
        = some none
    ∧ dictGet (publish_message dupClient "u" "m").state.events "request#u"
        = some false := by
  refine ⟨rfl, ?_, ?_⟩ <;> rfl

/-- C6 amended: Registering a pending call for an id that already has
an entry silently overwrites it: `publish_message` raises no
`DuplicateIdError` (no such check exists), resets the `responses` entry to
`None` and replaces the event by a fresh unset one. -/
theorem spec_c6 (s : AMQPRPCClient) (u m : String) (r : Option String)
    (hdup : dictGet s.responses (corrId u) = some r)
    (hc : s.connectionOk = true) :
    (publish_message s u m).err = none
    ∧ dictGet (publish_message s u m).state.responses (corrId u) = some none
    ∧ dictGet (publish_message s u m).state.events (corrId u) = some false := by
  refine ⟨?_, ?_, ?_⟩ <;>
    simp [publish_message, publishTrace, execTrace, exec, hc,
      dictGet_dictSet_self]

/-- Witness for C6 on a client already holding an entry for the id. -/
theorem spec_c6_witness :
    dictGet dupClient.responses (corrId "u") = some (some "old")
    ∧ dictGet (publish_message dupClient "u" "m").state.responses (corrId "u")
        = some none :=
  ⟨rfl, (spec_c6 dupClient "u" "m" (some "old") rfl rfl).2.1⟩

/-- No statement of the client reads or writes the queue of undrained
deliveries: one statement's effect commutes with changing `inbound`. -/
theorem exec_inbound (s : AMQPRPCClient) (ds : List Delivery) (a : Stmt) :
    exec { s with inbound := ds } a
      = ({ (exec s a).1 with inbound := ds }, (exec s a).2) := by
  cases a with
  | lookupEvent id =>
      rcases h : dictGet s.events id with _ | b <;> simp [exec, h]
  | publish msg =>
      rcases h : s.connectionOk with _ | _ <;> simp [exec, h]
  | _ => simp [exec]

/-- Running any statement list commutes with changing `inbound`. -/
theorem execTrace_inbound (s : AMQPRPCClient) (ds : List Delivery)
    (t : List Stmt) :
    execTrace { s with inbound := ds } t
      = ({ (execTrace s t).1 with inbound := ds }, (execTrace s t).2) := by
  induction t generalizing s with
  | nil => simp [execTrace]
  | cons a rest ih =>
      simp only [execTrace, exec_inbound]
      rcases h : exec s a with ⟨s', e⟩
      cases e with
      | none => simpa using ih s'
      | some e => simp

/-- C7: `publish_message` returns the freshly generated correlation id
without consuming any inbound delivery: its outcome is unchanged by whatever
deliveries are queued (it only carries them along), on a live connection it
returns `'request#' + uuid` without error, and two calls whose uuids differ
return distinct correlation ids. -/
theorem spec_c7 (s : AMQPRPCClient) (u m : String) :
    (∀ ds : List Delivery,
        (publish_message { s with inbound := ds } u m).err
          = (publish_message s u m).err
        ∧ (publish_message { s with inbound := ds } u m).ret
          = (publish_message s u m).ret
        ∧ (publish_message { s with inbound := ds } u m).state
          = { (publish_message s u m).state with inbound := ds })
    ∧ (s.connectionOk = true →
        (publish_message s u m).err = none
        ∧ (publish_message s u m).ret = some (corrId u))
    ∧ (∀ u1 u2 : String, u1 ≠ u2 → corrId u1 ≠ corrId u2) := by
  refine ⟨fun ds => ?_, fun hc => ?_, fun u1 u2 hne heq => ?_⟩
  · have h := execTrace_inbound s ds
      (publishTrace u m s.msg_callback_queue s.exchange_name)
    refine ⟨?_, ?_, ?_⟩ <;> simp [publish_message, h]
  · constructor <;> simp [publish_message, publishTrace, execTrace, exec, hc]
  · apply hne
    apply String.ext
    simp only [corrId] at heq
    have hd := congrArg String.data heq
    rw [String.data_append, String.data_append] at hd
    exact List.append_cancel_left hd

/-- Witness for C7: a fresh client returns the id built from the uuid, and
different uuids give different ids. -/
theorem spec_c7_witness :
    (publish_message (initial_client "q" "ex") "a" "m").err = none
    ∧ (publish_message (initial_client "q" "ex") "a" "m").ret
        = some (corrId "a")
    ∧ corrId "a" ≠ corrId "b" :=
  ⟨((spec_c7 (initial_client "q" "ex") "a" "m").2.1 rfl).1,
   ((spec_c7 (initial_client "q" "ex") "a" "m").2.1 rfl).2,
   (spec_c7 (initial_client "q" "ex") "a" "m").2.2 "a" "b" (by decide)⟩

/-- C8: A second delivery for an already fulfilled id does not crash the
Pump: the handler terminates without raising, overwrites the stored result
with the new payload (last write wins) and leaves the event signalled. -/
theorem spec_c8 (s : AMQPRPCClient) (cid : String) (tag : Nat)
    (content old : String) (hev : dictGet s.events cid = some true)
    (hres : dictGet s.responses cid = some (some old)) :
    (execTrace s (on_message_received cid tag content)).2 = none
    ∧ dictGet (execTrace s (on_message_received cid tag content)).1.responses
        cid = some (some content)
    ∧ dictGet (execTrace s (on_message_received cid tag content)).1.events
        cid = some true := by
  refine ⟨?_, ?_, ?_⟩ <;>
    simp [on_message_received, execTrace, exec, hev, dictGet_dictSet_self]

/-- Witness for C8: a concrete fulfilled call receives a second reply. -/
theorem spec_c8_witness :
    (execTrace fulfilledClient (on_message_received "request#a" 7 "new")).2
      = none
    ∧ dictGet (execTrace fulfilledClient
        (on_message_received "request#a" 7 "new")).1.responses "request#a"
      = some (some "new") :=
  ⟨(spec_c8 fulfilledClient "request#a" 7 "new" "old" rfl rfl).1,
   (spec_c8 fulfilledClient "request#a" 7 "new" "old" rfl rfl).2.1⟩

/-- C9 counterexample: In the no-delivery iteration of the pump loop the
`sleep(0.1)` is the statement at index 1, and the state in which it executes
(after the preceding statements) holds the internal lock — the lock is held
while the Pump is idle during its inter-iteration sleep. -/
theorem spec_c9_counterexample :
    (pumpIterationTrace []).get? 1 = some Stmt.sleep
    ∧ (execTrace (initial_client "q" "ex")
        ((pumpIterationTrace []).take 1)).1.lockHeld = true := by
  constructor <;> rfl

/-- C9 amended: The pump loop body holds the internal lock for the
whole iteration, including the `sleep(0.1)`: every iteration's statement list
is the acquire followed by the handler dispatches followed by the sleep and
only then the release, and the state in which the sleep statement executes —
reached by running everything before it, for any delivery batch — has the
lock held. -/
theorem spec_c9 (s : AMQPRPCClient) (ds : List Delivery) :
    pumpIterationTrace ds
      = (Stmt.acquire :: handlersTrace ds) ++ [Stmt.sleep, Stmt.release]
    ∧ (execTrace s (Stmt.acquire :: handlersTrace ds)).1.lockHeld = true := by
  refine ⟨rfl, ?_⟩
  have h := handlersTrace_lockHeld ds { s with lockHeld := true }
  simp only [execTrace, exec]
  simpa using h

section InvariantLemmas

/-- The invariant only reads the two dictionaries. -/
theorem registryInv_of_maps (s t : AMQPRPCClient) (hs : RegistryInv s)
    (hr : t.responses = s.responses) (he : t.events = s.events) :
    RegistryInv t := by
  intro id hid
  rw [he] at hid
  rw [hr]
  exact hs id hid

/-- Storing a decoded payload preserves the invariant. -/
theorem registryInv_store (s : AMQPRPCClient) (hs : RegistryInv s)
    (cid p : String) :
    RegistryInv { s with responses := dictSet s.responses cid (some p) } := by
  intro id hid
  by_cases h : cid = id
  · subst h
    exact ⟨p, dictGet_dictSet_self _ _ _⟩
  · obtain ⟨q, hq⟩ := hs id hid
    refine ⟨q, ?_⟩
    rw [dictGet_dictSet_ne _ _ _ _ h]
    exact hq

/-- Resetting a fresh id's response slot to `None` preserves the invariant,
because a fresh id has no event yet, let alone a signalled one. -/
theorem registryInv_registerResponse (s : AMQPRPCClient) (hs : RegistryInv s)
    (cid : String) (hfresh : dictGet s.events cid = none) :
    RegistryInv { s with responses := dictSet s.responses cid none } := by
  intro id hid
  by_cases h : cid = id
  · subst h
    have hid' : dictGet s.events cid = some true := hid
    rw [hfresh] at hid'
    cases hid'
  · obtain ⟨q, hq⟩ := hs id hid
    refine ⟨q, ?_⟩
    rw [dictGet_dictSet_ne _ _ _ _ h]
    exact hq

/-- Installing an unset event preserves the invariant. -/
theorem registryInv_registerEvent (s : AMQPRPCClient) (hs : RegistryInv s)
    (cid : String) :
    RegistryInv { s with events := dictSet s.events cid false } := by
  intro id hid
  by_cases h : cid = id
  · subst h
    have hid' : dictGet (dictSet s.events cid false) cid = some true := hid
    rw [dictGet_dictSet_self] at hid'
    simp at hid'
  · have hid' : dictGet (dictSet s.events cid false) id = some true := hid
    rw [dictGet_dictSet_ne _ _ _ _ h] at hid'
    exact hs id hid'

/-- Signalling an event whose payload is already stored preserves the
invariant. -/
theorem registryInv_signal (s : AMQPRPCClient) (hs : RegistryInv s)
    (cid p : String) (hp : dictGet s.responses cid = some (some p)) :
    RegistryInv { s with events := dictSet s.events cid true } := by
  intro id hid
  by_cases h : cid = id
  · subst h
    exact ⟨p, hp⟩
  · have hid' : dictGet (dictSet s.events cid true) id = some true := hid
    rw [dictGet_dictSet_ne _ _ _ _ h] at hid'
    exact hs id hid'

end InvariantLemmas

/-- C10: The wake invariant of the registry: assume every signalled event
already has a non-`None` payload stored under its id, and that the id being
registered is fresh (as uuid generation guarantees).  Then every prefix of a
`publish_message` run and every prefix of a handler run preserves the
invariant: `publish_message` creates the entry with `None` and an unset
event, and the handler stores the payload strictly before setting the event,
so a woken waiter never observes a signalled event with a missing result. -/
theorem spec_c10 (s : AMQPRPCClient) (u m cbq exch cid : String) (tag : Nat)
    (content : String) (n : Nat) (hs : RegistryInv s) :
    (dictGet s.events (corrId u) = none →
        RegistryInv (execTrace s ((publishTrace u m cbq exch).take n)).1)
    ∧ RegistryInv
        (execTrace s ((on_message_received cid tag content).take n)).1 := by
  constructor
  · intro hfresh
    have h1 : RegistryInv
        { s with responses := dictSet s.responses (corrId u) none } :=
      registryInv_registerResponse s hs (corrId u) hfresh
    have h2 : RegistryInv
        { s with responses := dictSet s.responses (corrId u) none
                 events := dictSet s.events (corrId u) false } :=
      registryInv_of_maps _ _ (registryInv_registerEvent _ h1 (corrId u))
        rfl rfl
    rcases n with _ | _ | _ | _ | _ | _ | n
    · exact registryInv_of_maps _ _ hs rfl rfl
    · exact registryInv_of_maps _ _ h1 rfl rfl
    · exact registryInv_of_maps _ _ h2 rfl rfl
    · exact registryInv_of_maps _ _ h2 rfl rfl
    · rcases hcon : s.connectionOk with _ | _ <;>
        (simp [publishTrace, execTrace, exec, hcon];
          exact registryInv_of_maps _ _ h2 rfl rfl)
    · rcases hcon : s.connectionOk with _ | _ <;>
        (simp [publishTrace, execTrace, exec, hcon];
          exact registryInv_of_maps _ _ h2 rfl rfl)
    · have hlen : (publishTrace u m cbq exch).length ≤ n + 6 := by
        show 6 ≤ n + 6
        omega
      rw [List.take_of_length_le hlen]
      rcases hcon : s.connectionOk with _ | _ <;>
        (simp [publishTrace, execTrace, exec, hcon];
          exact registryInv_of_maps _ _ h2 rfl rfl)
  · have h1 : RegistryInv
        { s with responses := dictSet s.responses cid (some content) } :=
      registryInv_store s hs cid content
    have h2 : RegistryInv
        { s with responses := dictSet s.responses cid (some content)
                 acked := s.acked ++ [tag] } :=
      registryInv_of_maps _ _ h1 rfl rfl
    have hp : dictGet
        ({ s with responses := dictSet s.responses cid (some content)
                  acked := s.acked ++ [tag] } : AMQPRPCClient).responses cid
        = some (some content) := dictGet_dictSet_self _ _ _
    have h3 := registryInv_signal _ h2 cid content hp
    rcases n with _ | _ | _ | _ | _ | _ | n
    · exact registryInv_of_maps _ _ hs rfl rfl
    · exact registryInv_of_maps _ _ hs rfl rfl
    · exact registryInv_of_maps _ _ h1 rfl rfl
    · exact registryInv_of_maps _ _ h1 rfl rfl
    · exact registryInv_of_maps _ _ h2 rfl rfl
    · rcases hk : dictGet s.events cid with _ | b <;>
        (simp [on_message_received, execTrace, exec, hk];
          exact registryInv_of_maps _ _ h2 rfl rfl)
    · have hlen : (on_message_received cid tag content).length ≤ n + 6 := by
        show 6 ≤ n + 6
        omega
      rw [List.take_of_length_le hlen]
      rcases hk : dictGet s.events cid with _ | b
      · simp [on_message_received, execTrace, exec, hk]
        exact registryInv_of_maps _ _ h2 rfl rfl
      · simp [on_message_received, execTrace, exec, hk]
        exact registryInv_of_maps _ _ h3 rfl rfl

/-- Witness for C10 on a fresh client, running the full statement lists of
both methods. -/
theorem spec_c10_witness :
    RegistryInv (execTrace (initial_client "q" "ex")
      ((publishTrace "a" "m" "q" "ex").take 6)).1
    ∧ RegistryInv (execTrace (initial_client "q" "ex")
      ((on_message_received "x" 9 "p").take 6)).1 :=
  ⟨(spec_c10 (initial_client "q" "ex") "a" "m" "q" "ex" "x" 9 "p" 6
      (fun id h => by simp [initial_client, dictGet] at h)).1 rfl,
   (spec_c10 (initial_client "q" "ex") "a" "m" "q" "ex" "x" 9 "p" 6
      (fun id h => by simp [initial_client, dictGet] at h)).2⟩
